import Mathlib

/-!
# Verification of the xcube-vdc-places configuration pipeline

Shallow embedding of `xcube_vdc_plugin/api/context.py`: wildcard dataset
expansion, opener selection, the split transform, place-group
materialization and the time-field normalizer, together with theorems
settling the specification's claims about them.

Python dicts of string-valued configuration fields are embedded as
association lists (`StrDict`); external collaborators (the data store,
`dateutil.parser.parse`, the places context's id derivation, property
mapping and sub-group validation) are parameters of the embedded
functions.  Raised exceptions are embedded as `Except PyErr`.
-/

set_option autoImplicit false

namespace VdcPlaces

/-- Exceptions raised by the embedded code: `ApiError.InvalidServerConfig`
with its message, and Python's `KeyError` from indexing a missing dict key. -/
inductive PyErr where
  | invalidServerConfig (msg : String)
  | keyError
  deriving Repr, DecidableEq

/-- A Python dict with string keys and string values, embedded as an
ordered association list (Python dicts preserve insertion order). -/
abbrev StrDict := List (String × String)

/-- `d[k]` lookup returning `none` when the key is absent (`dict.get`). -/
def dget? : StrDict → String → Option String
  | [], _ => none
  | p :: d, k => if p.1 = k then some p.2 else dget? d k

/-- `k in d` membership test. -/
def dmem (d : StrDict) (k : String) : Bool :=
  (dget? d k).isSome

/-- `d[k] = v` assignment: replaces the value in place when the key is
present, appends a new entry otherwise. -/
def dinsert (d : StrDict) (k v : String) : StrDict :=
  if dmem d k then d.map (fun p => if p.1 = k then (k, v) else p)
  else d ++ [(k, v)]

/-- `del d[k]`: removes the entry for `k`. -/
def derase : StrDict → String → StrDict
  | [], _ => []
  | p :: d, k => if p.1 = k then derase d k else p :: derase d k

/-- Python truthiness of an optional string: `None` and `""` are falsy. -/
def truthy : Option String → Bool
  | none => false
  | some s => s ≠ ""

/-! ## Wildcard matching and identifier synthesis -/

/-- `STORE_DS_ID_SEPARATOR = "~"`. -/
def STORE_DS_ID_SEPARATOR : String := "~"

/-- `_is_wildcard`: a string is a wildcard pattern when it contains
`?` or `*` (Python's single-character `in` test). -/
def _is_wildcard (string : String) : Bool :=
  string.toList.contains '?' || string.toList.contains '*'

/-- Python's `str.startswith(pre)`. -/
def startswith (s pre : String) : Bool :=
  pre.toList.isPrefixOf s.toList

/-- Shell-style glob matching on character lists, as performed by
`fnmatch.fnmatch` for the patterns this subsystem produces: `*` matches any
run of characters (any split of the remaining input), `?` any single
character, all other characters match themselves.  (Bracket expressions are
not modelled: `_is_wildcard` routes a pattern to `fnmatch` only when it
contains `*` or `?`, and the spec describes matching as exactly this
shell-style `*`/`?` semantics.) -/
def globMatch : List Char → List Char → Bool
  | [], s => s.isEmpty
  | '*' :: p, s =>
    (List.range (s.length + 1)).any (fun i => globMatch p (s.drop i))
  | '?' :: p, s =>
    (match s with
     | [] => false
     | _ :: s' => globMatch p s')
  | c :: p, s =>
    (match s with
     | [] => false
     | d :: s' => c == d && globMatch p s')

/-- `fnmatch.fnmatch(name, pattern)`. -/
def fnmatch (name pattern : String) : Bool :=
  globMatch pattern.toList name.toList

/-! ## Dataset config expansion -/

/-- The fields of a raw Dataset Entry dict that this subsystem reads
(`Path` and `Identifier`, both possibly absent); the remaining entry keys
are opaque pass-through metadata not inspected by the embedded code. -/
structure DatasetEntry where
  path? : Option String
  identifier? : Option String
  deriving Repr, DecidableEq

/-- A Resolved Dataset Config: the entry's fields plus the
`StoreInstanceId` added by `_get_selected_dataset_config`. -/
structure DsConfig where
  storeInstanceId : String
  path? : Option String
  identifier? : Option String
  deriving Repr, DecidableEq

/-- `_get_selected_dataset_config(store_dataset_id, store_instance_id,
dataset_config_base)`.  Raises `InvalidServerConfig` when a user-defined
`Identifier` is present and `Path` differs from the selected dataset id;
reading the absent `Path` key in that check raises `KeyError`.  When no
`Identifier` is present, `Path` is overwritten with the selected id and an
`Identifier` is synthesized from the store instance id and the id. -/
def _get_selected_dataset_config (store_dataset_id store_instance_id : String)
    (dataset_config_base : DatasetEntry) : Except PyErr DsConfig :=
  let dataset_config : DsConfig :=
    ⟨store_instance_id, dataset_config_base.path?, dataset_config_base.identifier?⟩
  if dataset_config.identifier?.isSome then
    match dataset_config.path? with
    | none => .error .keyError
    | some p =>
      if p ≠ store_dataset_id then
        .error (.invalidServerConfig
          "User-defined identifiers can only be assigned to datasets with non-wildcard paths.")
      else
        .ok dataset_config
  else
    .ok { dataset_config with
          path? := some store_dataset_id,
          identifier? :=
            some (store_instance_id ++ STORE_DS_ID_SEPARATOR ++ store_dataset_id) }

/-- The inner loop of the wildcard branch of `get_dataset_configs_from_stores`:
for each advertised dataset id matching the pattern, select a config;
a raised error aborts the scan (the exception propagates). -/
def expandWildcard (store_dataset_ids : List String) (pattern store_instance_id : String)
    (entry : DatasetEntry) : Except PyErr (List DsConfig) :=
  match store_dataset_ids with
  | [] => .ok []
  | d :: ds =>
    if fnmatch d pattern then do
      let c ← _get_selected_dataset_config d store_instance_id entry
      let rest ← expandWildcard ds pattern store_instance_id entry
      .ok (c :: rest)
    else
      expandWildcard ds pattern store_instance_id entry

/-- The per-entry body of `get_dataset_configs_from_stores` (the Wildcard
Dataset Expander): `Path` defaults to `"*"`; a wildcard pattern is expanded
against the store's advertised vector-data-cube ids, a literal path is
selected directly.  (The literal branch reads `store_dataset_config["Path"]`,
which can only be reached with the key present, since an absent `Path`
defaults to the wildcard `"*"`; the `KeyError` case is kept for fidelity.) -/
def expandEntry (store_dataset_ids : List String) (store_instance_id : String)
    (entry : DatasetEntry) : Except PyErr (List DsConfig) :=
  let dataset_id_pattern := entry.path?.getD "*"
  if _is_wildcard dataset_id_pattern then
    expandWildcard store_dataset_ids dataset_id_pattern store_instance_id entry
  else
    match entry.path? with
    | none => .error .keyError
    | some p => (_get_selected_dataset_config p store_instance_id entry).map (fun c => [c])

/-- One configured store as seen by `get_dataset_configs_from_stores`: its
instance id, its raw dataset entries (`user_data`, possibly `None`), and the
dataset ids the live store advertises for the vector-data-cube type. -/
structure StoreRecord where
  instanceId : String
  datasets? : Option (List DatasetEntry)
  dataIds : List String

/-- Expansion of all entries of one store, concatenated in configured
order. -/
def expandStore (r : StoreRecord) : Except PyErr (List DsConfig) :=
  match r.datasets? with
  | none => .ok []
  | some entries =>
    entries.foldlM (fun acc e => do
      let cs ← expandEntry r.dataIds r.instanceId e
      pure (acc ++ cs)) []

/-- `get_dataset_configs_from_stores`: scans every store in pool order and
concatenates the expanded configs (the Config Resolver). -/
def get_dataset_configs_from_stores (pool : List StoreRecord) :
    Except PyErr (List DsConfig) :=
  pool.foldlM (fun acc r => do
    let cs ← expandStore r
    pure (acc ++ cs)) []

/-! ## Time-field normalizer -/

/-- The fixed precedence list of alternate time-field names scanned by
`_clean_time_name`. -/
def illegal_names : List String := ["datetime", "timestamp", "date-time", "date"]

/-- The loop body of `_clean_time_name`: for each name in the list, if it is
a key of the properties dict, write the parsed/reformatted value under
`"time"` and delete the original key.  `parse` embeds
`dateutil.parser.parse(...).isoformat()` (an external collaborator). -/
def cleanLoop (parse : String → String) : List String → StrDict → StrDict
  | [], properties => properties
  | n :: ns, properties =>
    match dget? properties n with
    | some v => cleanLoop parse ns (derase (dinsert properties "time" (parse v)) n)
    | none => cleanLoop parse ns properties

/-- `_clean_time_name(properties)` (the Time-Field Normalizer). -/
def _clean_time_name (parse : String → String) (properties : StrDict) : StrDict :=
  cleanLoop parse illegal_names properties

/-! ## Reading vector data cubes as geodataframes -/

/-- The attributes of a produced geodataframe that the split transform
reads and rewrites (`attrs["Title"]` and `attrs["Identifier"]`, both dict
keys that may be absent); the remaining copied attribute keys are opaque
pass-through metadata. -/
structure GdfAttrs where
  title? : Option String := none
  identifier? : Option String := none
  deriving Repr, DecidableEq

/-- A `GeoDataFrame`: its feature rows, each a mapping of property name to
value (as serialized by `gdf.to_json()`), plus its `attrs` dict. -/
structure GeoDataFrame where
  features : List StrDict
  attrs : GdfAttrs := {}
  deriving Repr, DecidableEq

/-- An opened vector data cube (external collaborator): its
geometry-bearing coordinate names (`vdc.xvec.geom_coords`), the values of
any coordinate (`vdc[c].values`, rendered as strings as the f-strings do),
the geodataframe of a single-element slice
(`vdc.isel({g: i}).xvec.to_geodataframe(geometry=g)`), and the wholesale
conversion `vdc.xvec.to_geodataframe()`. -/
structure VDC where
  geomCoords : List String
  coordVals : String → List String
  sliceGdf : String → Nat → GeoDataFrame
  toGdf : GeoDataFrame

/-- A live data store (external collaborator): advertised opener ids per
dataset id (`get_data_opener_ids`) and
`open_data(data_id, opener_id=..., **open_params)`. -/
structure DataStore where
  openerIds : String → List String
  openData : String → String → StrDict → VDC

/-- The fields of a resolved vdc config read by
`_read_vector_datacubes_as_geodataframes`.  `Split` defaults to `False`,
`StoreOpenParams` to the empty dict; `Title` and `Identifier` may be
absent (reading them then raises `KeyError`). -/
structure VdcCfg where
  storeInstanceId : String
  path : String
  title? : Option String := none
  identifier? : Option String := none
  split : Bool := false
  labelCoord? : Option String := none
  openParams : StrDict := []

/-- `for k in vdc_config.keys(): gdf.attrs[k] = vdc_config[k]` restricted to
the attribute keys the transform later reads: a key present on the config
overwrites the geodataframe's attribute, an absent key leaves it alone. -/
def copyAttrs (cfg : VdcCfg) (a : GdfAttrs) : GdfAttrs :=
  { title? := cfg.title? <|> a.title?,
    identifier? := cfg.identifier? <|> a.identifier? }

/-- The extension the split transform appends for slice `i`: the label
value when a `LabelCoord` key is given, the 1-based positional index
otherwise. -/
def extensionAt (cfg : VdcCfg) (labels : List String) (i : Nat) : String :=
  if cfg.labelCoord?.isSome then labels.getD i "" else toString (i + 1)

/-- The `for i, label in enumerate(labels)` loop of the split branch:
slice `i` of the geometry coordinate becomes one geodataframe whose copied
attributes get `Title`/`Identifier` rewritten with the extension — the
label when a `LabelCoord` key was given (a config value is a distinct
object from the coordinate name, so `label_coord is not geometry_name`
holds), else the 1-based index.  Reading an absent `Title` or `Identifier`
attribute raises `KeyError`. -/
def splitLoop (cfg : VdcCfg) (vdc : VDC) (geometry_name : String) :
    Nat → List String → Except PyErr (List GeoDataFrame)
  | _, [] => .ok []
  | i, label :: rest => do
    let sub_gdf := vdc.sliceGdf geometry_name i
    let a := copyAttrs cfg sub_gdf.attrs
    let extension := if cfg.labelCoord?.isSome then label else toString (i + 1)
    match a.title?, a.identifier? with
    | some t, some ident =>
      let a' : GdfAttrs :=
        ⟨some (t ++ " - " ++ extension), some (ident ++ "_" ++ extension)⟩
      let restGdfs ← splitLoop cfg vdc geometry_name (i + 1) rest
      .ok ({ sub_gdf with attrs := a' } :: restGdfs)
    | none, _ => .error .keyError
    | _, none => .error .keyError

/-- Processing of one vdc config after an opener has been chosen: open the
cube with that opener and convert it — split branch slices along the first
geometry coordinate (an empty `geom_coords` leaves `geometry_name` unbound,
a raised `NameError`, embedded as `keyError`), unsplit branch converts
wholesale (the final debug log reads `gdf.attrs["Title"]`, raising
`KeyError` when absent). -/
def readOpened (pool : String → DataStore) (cfg : VdcCfg) (opener_id : String) :
    Except PyErr (List GeoDataFrame) :=
  let data_store := pool cfg.storeInstanceId
  let vdc := data_store.openData cfg.path opener_id cfg.openParams
  if cfg.split then
    match vdc.geomCoords with
    | [] => .error .keyError
    | geometry_name :: _ =>
      let label_coord := cfg.labelCoord?.getD geometry_name
      let labels := vdc.coordVals label_coord
      splitLoop cfg vdc geometry_name 0 labels
  else
    let gdf := { vdc.toGdf with attrs := copyAttrs cfg vdc.toGdf.attrs }
    match gdf.attrs.title? with
    | none => .error .keyError
    | some _ => .ok [gdf]

/-- The per-config body of `_read_vector_datacubes_as_geodataframes` (the
Cube Opener plus the Cube-to-Feature-Set Transform): the first advertised
opener id starting with the `"vectordatacube"` tag is selected; when none
matches, the dataset contributes nothing (logged, `continue`). -/
def readOne (pool : String → DataStore) (cfg : VdcCfg) :
    Except PyErr (List GeoDataFrame) :=
  let data_store := pool cfg.storeInstanceId
  let data_opener_ids := data_store.openerIds cfg.path
  match data_opener_ids.find? (fun oid => startswith oid "vectordatacube") with
  | none => .ok []
  | some opener_id => readOpened pool cfg opener_id

/-- `_read_vector_datacubes_as_geodataframes`: every resolved config in
order, concatenating the produced geodataframes; an uncaught exception
aborts the run. -/
def _read_vector_datacubes_as_geodataframes (pool : String → DataStore) :
    List VdcCfg → Except PyErr (List GeoDataFrame)
  | [] => .ok []
  | cfg :: rest => do
    let gdfs ← readOne pool cfg
    let restGdfs ← _read_vector_datacubes_as_geodataframes pool rest
    .ok (gdfs ++ restGdfs)

/-! ## Place group materialization -/

/-- The cached place-group record (`dict(type=..., features=..., id=...,
title=..., propertyMapping=..., sourcePaths=..., sourceEncoding=...)`).
`features` is `None` until populated. -/
structure PlaceGroup where
  type : String
  features : Option (List StrDict)
  id : String
  title : String
  propertyMapping : List (String × String)
  sourcePaths : String
  sourceEncoding : String

/-- The places collaborator's cache of place groups, keyed by place-group
id. -/
def Cache : Type := String → Option PlaceGroup

/-- `set_cached_place_group(id, pg)`. -/
def cset (cache : Cache) (pgid : String) (pg : PlaceGroup) : Cache :=
  fun k => if k = pgid then some pg else cache k

/-- `load_gdf_place_group_features(place_group, gdf)`: a no-op when
`features` is already populated; otherwise serializes the geodataframe's
features, normalizes each feature's time properties, and stores the list. -/
def load_gdf_place_group_features (parse : String → String)
    (place_group : PlaceGroup) (gdf : GeoDataFrame) : PlaceGroup :=
  match place_group.features with
  | some _ => place_group
  | none =>
    { place_group with
      features := some (gdf.features.map (fun properties => _clean_time_name parse properties)) }

/-- `_create_place_group(place_group_config, gdf)` (the Place Group
Materializer).  External collaborators are parameters: `parse` the time
parser, `get_place_group_id_safe` the id derivation (which may itself
raise), `get_property_mapping` and `check_sub_group_configs` from the
places context.  A truthy `PlaceGroupRef` raises before anything else;
otherwise the cached record for the derived id is reused (the population
pass mutates the cached object in place, embedded by writing the loaded
record back to the cache), and a fresh record is built, validated, cached
and populated when no cached record exists. -/
def _create_place_group (parse : String → String)
    (get_place_group_id_safe : StrDict → Except PyErr String)
    (get_property_mapping : String → StrDict → List (String × String))
    (check_sub_group_configs : StrDict → Except PyErr Unit)
    (address port : String) (cache : Cache)
    (place_group_config : StrDict) (gdf : GeoDataFrame) :
    Except PyErr (Cache × PlaceGroup) :=
  if truthy (dget? place_group_config "PlaceGroupRef") then
    .error (.invalidServerConfig "'PlaceGroupRef' cannot be used in a GDF place group")
  else do
    let place_group_id ← get_place_group_id_safe place_group_config
    match cache place_group_id with
    | some place_group =>
      let place_group := load_gdf_place_group_features parse place_group gdf
      .ok (cset cache place_group_id place_group, place_group)
    | none =>
      let place_group_title := (dget? place_group_config "Title").getD place_group_id
      let base_url := "http://" ++ address ++ ":" ++ port
      let property_mapping := get_property_mapping base_url place_group_config
      let source_encoding := (dget? place_group_config "CharacterEncoding").getD "utf-8"
      let place_group : PlaceGroup :=
        ⟨"FeatureCollection", none, place_group_id, place_group_title,
          property_mapping, "None", source_encoding⟩
      let _ ← check_sub_group_configs place_group_config
      let place_group := load_gdf_place_group_features parse place_group gdf
      .ok (cset cache place_group_id place_group, place_group)

/-! ## Fixtures for concrete evaluation -/

/-- A concrete opened cube: one geometry coordinate `geometry`, a label
coordinate `site` with labels `north`/`south`, and slice geodataframes
tagged with their slice index. -/
def testVdc : VDC :=
  ⟨["geometry"],
   fun c => if c = "site" then ["north", "south"] else ["g0", "g1"],
   fun _ i => ⟨[[("p", toString i)]], {}⟩,
   ⟨[[("p", "all")]], {}⟩⟩

/-- A store advertising a vector-data-cube opener in second position. -/
def testStore : DataStore :=
  ⟨fun _ => ["zarr", "vectordatacube:geojson", "vectordatacube:netcdf"],
   fun _ _ _ => testVdc⟩

/-- A store advertising no vector-data-cube opener. -/
def testStoreNoOpener : DataStore :=
  ⟨fun _ => ["zarr", "netcdf"], fun _ _ _ => testVdc⟩

/-- A pool with the no-opener store under instance id `SN`. -/
def testPool : String → DataStore :=
  fun sid => if sid = "SN" then testStoreNoOpener else testStore

/-- A split config labelled by the `site` coordinate. -/
def testSplitCfg : VdcCfg :=
  { storeInstanceId := "S1", path := "sites", title? := some "Sites",
    identifier? := some "S1~sites", split := true, labelCoord? := some "site" }

/-- An unsplit config. -/
def testUnsplitCfg : VdcCfg :=
  { storeInstanceId := "S1", path := "cube", title? := some "Cube",
    identifier? := some "S1~cube" }

/-- An unsplit config whose store has no compatible opener. -/
def testNoOpenerCfg : VdcCfg :=
  { storeInstanceId := "SN", path := "cube", title? := some "Cube",
    identifier? := some "SN~cube" }

/-- A concrete id derivation (the places collaborator's
`get_place_group_id_safe`): reads the `Identifier` attribute. -/
def testDeriveId : StrDict → Except PyErr String :=
  fun attrs => .ok ((dget? attrs "Identifier").getD "?")

/-- A concrete property-mapping collaborator. -/
def testPropMapping : String → StrDict → List (String × String) :=
  fun _ _ => []

/-- A concrete sub-group validation collaborator that accepts anything. -/
def testCheckSub : StrDict → Except PyErr Unit :=
  fun _ => .ok ()

/-- The empty place-group cache. -/
def emptyCache : Cache := fun _ => none

/-- A geodataframe with one feature carrying a `datetime` property. -/
def testGdf : GeoDataFrame := ⟨[[("datetime", "D"), ("name", "n1")]], {}⟩

/-- A different geodataframe, used for the second materialization. -/
def testGdf2 : GeoDataFrame := ⟨[[("other", "x")]], {}⟩

/-- The place group materialized from `testGdf` under id `G` with the
identity time parser. -/
def testPlaceGroup : PlaceGroup :=
  ⟨"FeatureCollection", some [[("name", "n1"), ("time", "D")]], "G", "G",
   [], "None", "utf-8"⟩

/-- The cache after the first materialization. -/
def testCache1 : Cache := cset emptyCache "G" testPlaceGroup

/-! ## Lemmas on the embedded dict operations -/

theorem dget?_cons (q : String × String) (d : StrDict) (k : String) :
    dget? (q :: d) k = if q.1 = k then some q.2 else dget? d k := rfl

theorem dmem_cons_false (q : String × String) (d : StrDict) (k : String)
    (hm : dmem (q :: d) k = false) : ¬ q.1 = k ∧ dmem d k = false := by
  by_cases hq : q.1 = k
  · have : dmem (q :: d) k = true := by simp [dmem, dget?_cons, hq]
    rw [this] at hm
    exact absurd hm (by simp)
  · exact ⟨hq, by simpa [dmem, dget?_cons, hq] using hm⟩

theorem dget?_replace_self (d : StrDict) (k v : String) (hm : dmem d k = true) :
    dget? (d.map (fun p => if p.1 = k then (k, v) else p)) k = some v := by
  induction d with
  | nil => simp [dmem, dget?] at hm
  | cons q d ih =>
    by_cases hq : q.1 = k
    · simp [dget?_cons, hq]
    · have hd : dmem d k = true := by
        simpa [dmem, dget?_cons, hq] using hm
      simp [dget?_cons, hq, ih hd]

theorem dget?_replace_ne (d : StrDict) (k v k' : String) (h : k' ≠ k) :
    dget? (d.map (fun p => if p.1 = k then (k, v) else p)) k' = dget? d k' := by
  induction d with
  | nil => rfl
  | cons q d ih =>
    by_cases hq : q.1 = k
    · simp [dget?_cons, hq, Ne.symm h, ih]
    · simp [dget?_cons, hq, ih]

theorem dget?_append_self (d : StrDict) (k v : String) (hm : dmem d k = false) :
    dget? (d ++ [(k, v)]) k = some v := by
  induction d with
  | nil => simp [dget?_cons]
  | cons q d ih =>
    obtain ⟨hq, hd⟩ := dmem_cons_false q d k hm
    simp [List.cons_append, dget?_cons, hq, ih hd]

theorem dget?_append_ne (d : StrDict) (k v k' : String) (h : k' ≠ k) :
    dget? (d ++ [(k, v)]) k' = dget? d k' := by
  induction d with
  | nil => simp [dget?_cons, dget?, Ne.symm h]
  | cons q d ih => simp [List.cons_append, dget?_cons, ih]

theorem dget?_dinsert_self (d : StrDict) (k v : String) :
    dget? (dinsert d k v) k = some v := by
  unfold dinsert
  rcases hm : dmem d k with _ | _
  · rw [if_neg (by simp [hm])]
    exact dget?_append_self d k v hm
  · rw [if_pos (by simp [hm])]
    exact dget?_replace_self d k v hm

theorem dget?_dinsert_ne (d : StrDict) (k v k' : String) (h : k' ≠ k) :
    dget? (dinsert d k v) k' = dget? d k' := by
  unfold dinsert
  rcases hm : dmem d k with _ | _
  · rw [if_neg (by simp [hm])]
    exact dget?_append_ne d k v k' h
  · rw [if_pos (by simp [hm])]
    exact dget?_replace_ne d k v k' h

theorem dget?_derase_self (d : StrDict) (k : String) :
    dget? (derase d k) k = none := by
  induction d with
  | nil => rfl
  | cons q d ih =>
    by_cases hq : q.1 = k
    · simpa [derase, hq] using ih
    · simpa [derase, hq, dget?_cons] using ih

theorem dget?_derase_ne (d : StrDict) (k k' : String) (h : k' ≠ k) :
    dget? (derase d k) k' = dget? d k' := by
  induction d with
  | nil => rfl
  | cons q d ih =>
    by_cases hq : q.1 = k
    · have hkk' : ¬ k = k' := Ne.symm h
      simp [derase, hq, dget?_cons, hkk', ih]
    · simp [derase, hq, dget?_cons, ih]

/-- After one pass of the normalizer loop over a list of names not
containing `"time"`: every scanned name is gone, unscanned keys other than
`"time"` are untouched, and `"time"` holds the parsed value of the last
scanned name that was present (or its old value when none was). -/
theorem cleanLoop_spec (parse : String → String) (ns : List String)
    (props : StrDict) (htime : "time" ∉ ns) (hnd : ns.Nodup) :
    (∀ n ∈ ns, dget? (cleanLoop parse ns props) n = none)
    ∧ (∀ k, k ∉ ns → k ≠ "time" →
        dget? (cleanLoop parse ns props) k = dget? props k)
    ∧ dget? (cleanLoop parse ns props) "time" =
        (match (ns.filterMap (fun n => dget? props n)).getLast? with
         | some v => some (parse v)
         | none => dget? props "time") := by
  induction ns generalizing props with
  | nil => exact ⟨by simp, fun k _ _ => rfl, by simp [cleanLoop]⟩
  | cons n ns ih =>
    have htn : "time" ≠ n := fun hh => htime (hh ▸ List.mem_cons_self n ns)
    have hnt : n ≠ "time" := Ne.symm htn
    have htime' : "time" ∉ ns := fun hh => htime (List.mem_cons_of_mem n hh)
    have hnn : n ∉ ns := (List.nodup_cons.mp hnd).1
    have hnd' : ns.Nodup := (List.nodup_cons.mp hnd).2
    rcases hv : dget? props n with _ | v
    · -- the head name is absent: this iteration is a no-op
      have hloop : cleanLoop parse (n :: ns) props = cleanLoop parse ns props := by
        simp [cleanLoop, hv]
      obtain ⟨ih1, ih2, ih3⟩ := ih props htime' hnd'
      refine ⟨?_, ?_, ?_⟩
      · intro m hm
        rcases List.mem_cons.mp hm with hm | hm
        · rw [hloop, hm, ih2 n hnn hnt, hv]
        · rw [hloop]; exact ih1 m hm
      · intro k hk hkt
        rw [hloop]
        exact ih2 k (fun hh => hk (List.mem_cons_of_mem n hh)) hkt
      · rw [hloop, ih3]
        simp [List.filterMap_cons, hv]
    · -- the head name is present: substitute it, then recurse
      set props' := derase (dinsert props "time" (parse v)) n with hprops'
      have hloop : cleanLoop parse (n :: ns) props = cleanLoop parse ns props' := by
        simp [cleanLoop, hv, hprops']
      have hp'n : dget? props' n = none := dget?_derase_self _ n
      have hp'time : dget? props' "time" = some (parse v) := by
        rw [hprops', dget?_derase_ne _ _ _ htn, dget?_dinsert_self]
      have hp'other : ∀ k, k ≠ n → k ≠ "time" → dget? props' k = dget? props k := by
        intro k hk hkt
        rw [hprops', dget?_derase_ne _ _ _ hk, dget?_dinsert_ne _ _ _ _ hkt]
      have hsame : ns.filterMap (fun m => dget? props' m)
          = ns.filterMap (fun m => dget? props m) :=
        List.filterMap_congr (fun m hm =>
          hp'other m (fun hh => hnn (hh ▸ hm)) (fun hh => htime' (hh ▸ hm)))
      obtain ⟨ih1, ih2, ih3⟩ := ih props' htime' hnd'
      refine ⟨?_, ?_, ?_⟩
      · intro m hm
        rcases List.mem_cons.mp hm with hm | hm
        · rw [hloop, hm, ih2 n hnn hnt, hp'n]
        · rw [hloop]; exact ih1 m hm
      · intro k hk hkt
        have hkn : k ≠ n := fun hh => hk (hh ▸ List.mem_cons_self n ns)
        rw [hloop, ih2 k (fun hh => hk (List.mem_cons_of_mem n hh)) hkt]
        exact hp'other k hkn hkt
      · rw [hloop, ih3, hsame]
        rcases hlast : (ns.filterMap (fun m => dget? props m)).getLast? with _ | w
        · have : ns.filterMap (fun m => dget? props m) = [] :=
            List.getLast?_eq_none_iff.mp hlast
          simp [List.filterMap_cons, hv, this, hp'time]
        · have hne : ns.filterMap (fun m => dget? props m) ≠ [] := by
            intro hh; rw [hh] at hlast; simp at hlast
          rcases hsplit : ns.filterMap (fun m => dget? props m) with _ | ⟨w0, ws⟩
          · exact absurd hsplit hne
          · rw [hsplit] at hlast
            simp [List.filterMap_cons, hv, hsplit, List.getLast?_cons_cons, hlast]

/-! ## Lemmas on dataset config expansion -/

theorem exceptBind_ok {ε α β : Type} (a : α) (f : α → Except ε β) :
    (Except.ok a >>= f : Except ε β) = f a := rfl

theorem exceptBind_error {ε α β : Type} (err : ε) (f : α → Except ε β) :
    (Except.error err >>= f : Except ε β) = .error err := rfl

theorem getSelected_no_identifier (d sid : String) (e : DatasetEntry)
    (hid : e.identifier? = none) :
    _get_selected_dataset_config d sid e
      = .ok ⟨sid, some d, some (sid ++ STORE_DS_ID_SEPARATOR ++ d)⟩ := by
  simp [_get_selected_dataset_config, hid]

theorem getSelected_identifier_keep (d sid i : String) (e : DatasetEntry)
    (hp : e.path? = some d) (hid : e.identifier? = some i) :
    _get_selected_dataset_config d sid e = .ok ⟨sid, some d, some i⟩ := by
  simp [_get_selected_dataset_config, hp, hid]

theorem getSelected_identifier_conflict (d sid p i : String) (e : DatasetEntry)
    (hp : e.path? = some p) (hid : e.identifier? = some i) (hne : p ≠ d) :
    _get_selected_dataset_config d sid e
      = .error (.invalidServerConfig
          "User-defined identifiers can only be assigned to datasets with non-wildcard paths.") := by
  simp [_get_selected_dataset_config, hp, hid, hne]

theorem expandEntry_wildcard (ids : List String) (sid p : String) (e : DatasetEntry)
    (hp : e.path? = some p) (hw : _is_wildcard p = true) :
    expandEntry ids sid e = expandWildcard ids p sid e := by
  simp [expandEntry, hp, hw]

theorem expandEntry_nopath (ids : List String) (sid : String) (e : DatasetEntry)
    (hp : e.path? = none) :
    expandEntry ids sid e = expandWildcard ids "*" sid e := by
  have hstar : _is_wildcard "*" = true := rfl
  simp [expandEntry, hp, hstar]

theorem expandWildcard_no_identifier (ids : List String) (pat sid : String)
    (e : DatasetEntry) (hid : e.identifier? = none) :
    expandWildcard ids pat sid e
      = .ok ((ids.filter (fun d => fnmatch d pat)).map
          (fun d => ⟨sid, some d, some (sid ++ STORE_DS_ID_SEPARATOR ++ d)⟩)) := by
  induction ids with
  | nil => rfl
  | cons d ds ih =>
    by_cases hm : fnmatch d pat = true
    · simp [expandWildcard, hm, getSelected_no_identifier d sid e hid, ih,
        List.filter_cons, exceptBind_ok]
    · simp [expandWildcard, hm, ih, List.filter_cons]

theorem fnmatch_star (s : String) : fnmatch s "*" = true := by
  show (List.range (s.toList.length + 1)).any
      (fun i => globMatch [] (s.toList.drop i)) = true
  exact List.any_eq_true.mpr
    ⟨s.toList.length, by simp, by rw [List.drop_length]; rfl⟩

theorem expandWildcard_no_matches (pat sid : String) (e : DatasetEntry) :
    ∀ ids : List String, (∀ d ∈ ids, fnmatch d pat = false) →
      expandWildcard ids pat sid e = .ok []
  | [], _ => rfl
  | d :: ds, hnone => by
    have hd := hnone d (List.mem_cons_self d ds)
    unfold expandWildcard
    rw [if_neg (by simp [hd])]
    exact expandWildcard_no_matches pat sid e ds
      (fun d' hd' => hnone d' (List.mem_cons_of_mem d hd'))

theorem expandWildcard_matches_eq_pattern (pat sid i : String) (e : DatasetEntry)
    (hp : e.path? = some pat) (hid : e.identifier? = some i) :
    ∀ ids : List String, (∀ d ∈ ids, fnmatch d pat = true → d = pat) →
      expandWildcard ids pat sid e
        = .ok ((ids.filter (fun d => fnmatch d pat)).map
            (fun _ => ⟨sid, some pat, some i⟩))
  | [], _ => rfl
  | d :: ds, hall => by
    have ihd := expandWildcard_matches_eq_pattern pat sid i e hp hid ds
      (fun d' hd' => hall d' (List.mem_cons_of_mem d hd'))
    by_cases hm : fnmatch d pat = true
    · have hdp : d = pat := hall d (List.mem_cons_self d ds) hm
      subst hdp
      unfold expandWildcard
      rw [if_pos hm, getSelected_identifier_keep d sid i e hp hid,
        exceptBind_ok, ihd, exceptBind_ok, List.filter_cons, if_pos hm,
        List.map_cons]
    · unfold expandWildcard
      rw [if_neg hm, ihd, List.filter_cons, if_neg hm]

/-! ## Claims about the Wildcard Dataset Expander -/

/-- C4: for a Dataset Entry whose `Path` is a wildcard pattern and that
carries no `Identifier`, expansion emits exactly one Resolved Dataset
Config per advertised dataset id that glob-matches the pattern, in the
order of the store's dataset-id enumeration, each with `Path` equal to the
matched id and `Identifier` the store instance id joined to the matched id
with the separator `"~"`. -/
theorem wildcard_expansion_matches (ids : List String) (sid p : String)
    (e : DatasetEntry) (hp : e.path? = some p) (hw : _is_wildcard p = true)
    (hid : e.identifier? = none) :
    expandEntry ids sid e
      = .ok ((ids.filter (fun d => fnmatch d p)).map
          (fun d => ⟨sid, some d, some (sid ++ STORE_DS_ID_SEPARATOR ++ d)⟩)) := by
  rw [expandEntry_wildcard ids sid p e hp hw]
  exact expandWildcard_no_identifier ids p sid e hid

/-- Witness for C4 at the spec's own scenario: `regions_*` against
`["regions_2020", "regions_2021", "points"]`. -/
theorem wildcard_expansion_matches_witness :
    expandEntry ["regions_2020", "regions_2021", "points"] "S1"
        ⟨some "regions_*", none⟩
      = .ok [⟨"S1", some "regions_2020", some "S1~regions_2020"⟩,
             ⟨"S1", some "regions_2021", some "S1~regions_2021"⟩] :=
  (wildcard_expansion_matches ["regions_2020", "regions_2021", "points"] "S1"
    "regions_*" ⟨some "regions_*", none⟩ rfl rfl rfl).trans rfl

/-- C5: for a Dataset Entry whose `Path` contains no wildcard character,
expansion emits exactly one Resolved Dataset Config whose `Path` equals the
input `Path`; a user-supplied `Identifier` is kept unchanged, and otherwise
an `Identifier` is synthesized from the store instance id and the path. -/
theorem literal_expansion_single (ids : List String) (sid p : String)
    (e : DatasetEntry) (hp : e.path? = some p) (hw : _is_wildcard p = false) :
    expandEntry ids sid e
      = .ok [⟨sid, some p,
          some (e.identifier?.getD (sid ++ STORE_DS_ID_SEPARATOR ++ p))⟩] := by
  have hred : expandEntry ids sid e
      = (_get_selected_dataset_config p sid e).map (fun c => [c]) := by
    simp [expandEntry, hp, hw]
  rcases hi : e.identifier? with _ | i
  · rw [hred, getSelected_no_identifier p sid e hi]
    rfl
  · rw [hred, getSelected_identifier_keep p sid i e hp hi]
    rfl

/-- Witness for C5: a literal path with a user identifier keeps it; the
list of advertised ids is irrelevant to the literal branch. -/
theorem literal_expansion_single_witness :
    expandEntry ["other"] "S1" ⟨some "mycube", some "custom"⟩
      = .ok [⟨"S1", some "mycube", some "custom"⟩] :=
  (literal_expansion_single ["other"] "S1" "mycube"
    ⟨some "mycube", some "custom"⟩ rfl rfl).trans rfl

/-- C2 is false as stated: a wildcard `Path` with a pre-set `Identifier`
does NOT always fail — when the pattern matches none of the advertised
dataset ids, the per-match check never runs and expansion succeeds,
emitting nothing. -/
theorem wildcard_identifier_no_match_cex :
    _is_wildcard "regions_*" = true
    ∧ (⟨some "regions_*", some "my-id"⟩ : DatasetEntry).identifier?.isSome = true
    ∧ expandEntry ["points"] "S1" ⟨some "regions_*", some "my-id"⟩ = .ok [] :=
  ⟨rfl, rfl, rfl⟩

/-- C2 (amended): a wildcard `Path` with a pre-set `Identifier` fails with
the configuration error as soon as some advertised dataset id glob-matches
the pattern and differs from the pattern string; with no such match the
entry expands without error. -/
theorem wildcard_identifier_error_on_match (ids : List String) (sid p i : String)
    (e : DatasetEntry) (hp : e.path? = some p) (hw : _is_wildcard p = true)
    (hid : e.identifier? = some i)
    (hex : ∃ d ∈ ids, fnmatch d p = true ∧ d ≠ p) :
    expandEntry ids sid e
      = .error (.invalidServerConfig
          "User-defined identifiers can only be assigned to datasets with non-wildcard paths.") := by
  rw [expandEntry_wildcard ids sid p e hp hw]
  clear hw
  induction ids with
  | nil => simp at hex
  | cons d ds ih =>
    by_cases hm : fnmatch d p = true
    · by_cases hdp : d = p
      · have hex' : ∃ d' ∈ ds, fnmatch d' p = true ∧ d' ≠ p := by
          rcases hex with ⟨d0, hmem, hm0, hne0⟩
          rcases List.mem_cons.mp hmem with h0 | h0
          · exact absurd (h0.trans hdp) hne0
          · exact ⟨d0, h0, hm0, hne0⟩
        unfold expandWildcard
        rw [if_pos hm,
          getSelected_identifier_keep d sid i e (by rw [hdp]; exact hp) hid,
          exceptBind_ok, ih hex', exceptBind_error]
      · unfold expandWildcard
        rw [if_pos hm,
          getSelected_identifier_conflict d sid p i e hp hid
            (fun hh => hdp hh.symm),
          exceptBind_error]
    · have hex' : ∃ d' ∈ ds, fnmatch d' p = true ∧ d' ≠ p := by
        rcases hex with ⟨d0, hmem, hm0, hne0⟩
        rcases List.mem_cons.mp hmem with h0 | h0
        · exact absurd (h0 ▸ hm0) hm
        · exact ⟨d0, h0, hm0, hne0⟩
      unfold expandWildcard
      rw [if_neg hm]
      exact ih hex'

/-- Witness for the amended C2: one matching advertised id that differs
from the pattern triggers the configuration error. -/
theorem wildcard_identifier_error_on_match_witness :
    expandEntry ["regions_2020"] "S1" ⟨some "regions_*", some "my-id"⟩
      = .error (.invalidServerConfig
          "User-defined identifiers can only be assigned to datasets with non-wildcard paths.") :=
  wildcard_identifier_error_on_match ["regions_2020"] "S1" "regions_*" "my-id"
    ⟨some "regions_*", some "my-id"⟩ rfl rfl rfl
    ⟨"regions_2020", by simp, rfl, by decide⟩

/-- C9: for a wildcard `Path` with a user `Identifier`, the error check
runs only per matched advertised id — a pattern matching nothing expands
without error to no configs, and matches that are character-for-character
equal to the pattern string pass without error with the `Identifier`
kept. -/
theorem wildcard_identifier_benign (ids : List String) (sid p i : String)
    (e : DatasetEntry) (hp : e.path? = some p) (hw : _is_wildcard p = true)
    (hid : e.identifier? = some i) :
    ((∀ d ∈ ids, fnmatch d p = false) → expandEntry ids sid e = .ok [])
    ∧ ((∀ d ∈ ids, fnmatch d p = true → d = p) →
        expandEntry ids sid e
          = .ok ((ids.filter (fun d => fnmatch d p)).map
              (fun _ => ⟨sid, some p, some i⟩))) := by
  constructor
  · intro hnone
    rw [expandEntry_wildcard ids sid p e hp hw]
    exact expandWildcard_no_matches p sid e ids hnone
  · intro hall
    rw [expandEntry_wildcard ids sid p e hp hw]
    exact expandWildcard_matches_eq_pattern p sid i e hp hid ids hall

/-- Witness for C9: a pattern matching nothing succeeds with no configs,
and the exotic self-matching pattern `a*b` keeps the user identifier. -/
theorem wildcard_identifier_benign_witness :
    expandEntry ["points"] "S1" ⟨some "regions_*", some "my-id"⟩ = .ok []
    ∧ expandEntry ["zzz", "a*b"] "S2" ⟨some "a*b", some "kept"⟩
        = .ok [⟨"S2", some "a*b", some "kept"⟩] :=
  ⟨(wildcard_identifier_benign ["points"] "S1" "regions_*" "my-id"
      ⟨some "regions_*", some "my-id"⟩ rfl rfl rfl).1 (by decide),
   ((wildcard_identifier_benign ["zzz", "a*b"] "S2" "a*b" "kept"
      ⟨some "a*b", some "kept"⟩ rfl rfl rfl).2 (by decide)).trans rfl⟩

/-- C10 is false as stated: a Dataset Entry with no `Path` key IS treated
as the wildcard `"*"`, but when it also carries a user `Identifier` and the
store advertises at least one dataset id, the expansion crashes reading the
missing `Path` key instead of emitting configs. -/
theorem missing_path_with_identifier_cex :
    expandEntry ["a"] "S1" ⟨none, some "my-id"⟩ = .error .keyError := rfl

/-- C10 (amended): a Dataset Entry with no `Path` key and no user
`Identifier` is not rejected: it is treated as the wildcard pattern `"*"`
and expands to one Resolved Dataset Config with synthesized `Identifier`
per advertised dataset id. -/
theorem missing_path_expands_all (ids : List String) (sid : String)
    (e : DatasetEntry) (hp : e.path? = none) (hid : e.identifier? = none) :
    expandEntry ids sid e
      = .ok (ids.map
          (fun d => ⟨sid, some d, some (sid ++ STORE_DS_ID_SEPARATOR ++ d)⟩)) := by
  rw [expandEntry_nopath ids sid e hp,
    expandWildcard_no_identifier ids "*" sid e hid]
  congr 1
  rw [List.filter_eq_self.mpr (fun d _ => fnmatch_star d)]

/-- Witness for the amended C10. -/
theorem missing_path_expands_all_witness :
    expandEntry ["a", "b"] "S1" ⟨none, none⟩
      = .ok [⟨"S1", some "a", some "S1~a"⟩, ⟨"S1", some "b", some "S1~b"⟩] :=
  (missing_path_expands_all ["a", "b"] "S1" ⟨none, none⟩ rfl rfl).trans rfl

/-! ## Claims about the Time-Field Normalizer -/

/-- C1 is false as stated: with both `"timestamp"` and `"date"` present the
normalizer substitutes BOTH (the loop has no early exit) — `"date"` is not
left untouched, and the final `"time"` value comes from `"date"`, the last
present name in the precedence list, not the first. -/
theorem clean_time_name_first_match_cex :
    dget? (_clean_time_name (fun s => s) [("timestamp", "A"), ("date", "B")])
        "date" = none
    ∧ dget? (_clean_time_name (fun s => s) [("timestamp", "A"), ("date", "B")])
        "time" = some "B" :=
  ⟨rfl, rfl⟩

/-- C1 (amended): the Time-Field Normalizer substitutes EVERY alternate
time-field name present in the mapping, scanning the precedence list
`datetime, timestamp, date-time, date` in order: each present name is
parsed into `time` (later names overwriting earlier ones) and removed, so
afterwards no alternate name remains, `time` holds the parsed value of the
last present alternate (or its old value when none was present), and all
other keys are untouched. -/
theorem clean_time_name_all_alternates (parse : String → String)
    (properties : StrDict) :
    (∀ n ∈ illegal_names, dget? (_clean_time_name parse properties) n = none)
    ∧ (∀ k, k ∉ illegal_names → k ≠ "time" →
        dget? (_clean_time_name parse properties) k = dget? properties k)
    ∧ dget? (_clean_time_name parse properties) "time" =
        (match (illegal_names.filterMap (fun n => dget? properties n)).getLast? with
         | some v => some (parse v)
         | none => dget? properties "time") :=
  cleanLoop_spec parse illegal_names properties (by decide) (by decide)

/-- Witness for the amended C1: a non-time key survives, and `time` ends
up as the parse of the value of `date`, the last present alternate. -/
theorem clean_time_name_all_alternates_witness :
    dget? (_clean_time_name (fun s => s ++ "Z")
        [("x", "1"), ("timestamp", "A"), ("date", "B")]) "x" = some "1"
    ∧ dget? (_clean_time_name (fun s => s ++ "Z")
        [("x", "1"), ("timestamp", "A"), ("date", "B")]) "time" = some "BZ" :=
  ⟨(clean_time_name_all_alternates (fun s => s ++ "Z")
      [("x", "1"), ("timestamp", "A"), ("date", "B")]).2.1 "x"
      (by decide) (by decide),
   ((clean_time_name_all_alternates (fun s => s ++ "Z")
      [("x", "1"), ("timestamp", "A"), ("date", "B")]).2.2).trans rfl⟩

/-! ## Claims about the Cube Opener and the split transform -/

theorem splitLoop_eq (cfg : VdcCfg) (vdc : VDC) (g t id0 : String)
    (ht : cfg.title? = some t) (hid : cfg.identifier? = some id0) :
    ∀ (labels : List String) (i : Nat),
      splitLoop cfg vdc g i labels
        = .ok ((List.range labels.length).map (fun j =>
            { vdc.sliceGdf g (i + j) with attrs :=
                ⟨some (t ++ " - " ++ (if cfg.labelCoord?.isSome then
                    labels.getD j "" else toString (i + j + 1))),
                 some (id0 ++ "_" ++ (if cfg.labelCoord?.isSome then
                    labels.getD j "" else toString (i + j + 1)))⟩ }))
  | [], _ => rfl
  | label :: rest, i => by
    have ih := splitLoop_eq cfg vdc g t id0 ht hid rest (i + 1)
    have hta : (copyAttrs cfg (vdc.sliceGdf g i).attrs).title? = some t := by
      simp [copyAttrs, ht]
    have hia : (copyAttrs cfg (vdc.sliceGdf g i).attrs).identifier? = some id0 := by
      simp [copyAttrs, hid]
    simp only [splitLoop, hta, hia]
    rw [ih, exceptBind_ok]
    congr 1
    simp only [List.length_cons]
    rw [List.range_succ_eq_map, List.map_cons, List.map_map]
    congr 1
    refine List.map_congr_left (fun a ha => ?_)
    have harith : i + 1 + a = i + (a + 1) := by omega
    simp only [Function.comp_apply, Nat.succ_eq_add_one, harith,
      List.getD_cons_succ]

/-- C6: under `Split=true` the transform emits one feature set per slice,
in coordinate order, with `Title` rewritten to
`"<original Title> - <extension>"` and `Identifier` to
`"<original Identifier>_<extension>"`, where the extension is the 1-based
positional index when `LabelCoord` is absent and the label value of the
given `LabelCoord` when present. -/
theorem split_transform_extensions (pool : String → DataStore) (cfg : VdcCfg)
    (oid g t id0 : String) (gs : List String) (vdc0 : VDC)
    (labels : List String)
    (hfind : ((pool cfg.storeInstanceId).openerIds cfg.path).find?
        (fun o => startswith o "vectordatacube") = some oid)
    (hvdc : (pool cfg.storeInstanceId).openData cfg.path oid cfg.openParams
        = vdc0)
    (hsplit : cfg.split = true)
    (hgeom : vdc0.geomCoords = g :: gs)
    (hlabels : vdc0.coordVals (cfg.labelCoord?.getD g) = labels)
    (ht : cfg.title? = some t) (hid : cfg.identifier? = some id0) :
    readOne pool cfg
      = .ok ((List.range labels.length).map (fun i =>
          { vdc0.sliceGdf g i with attrs :=
              ⟨some (t ++ " - " ++ extensionAt cfg labels i),
               some (id0 ++ "_" ++ extensionAt cfg labels i)⟩ })) := by
  have h1 : readOne pool cfg = readOpened pool cfg oid := by
    simp only [readOne, hfind]
  rw [h1]
  simp only [readOpened, hvdc, hsplit, if_true, hgeom, hlabels]
  rw [splitLoop_eq cfg vdc0 g t id0 ht hid labels 0]
  congr 1
  exact List.map_congr_left (fun j hj => by simp [extensionAt])

/-- Witness for C6 at the spec's scenario: a cube split on coordinate
`site` with labels `north`/`south` and title `Sites` produces feature sets
titled `Sites - north` and `Sites - south`. -/
theorem split_transform_extensions_witness :
    readOne testPool testSplitCfg
      = .ok [⟨[[("p", "0")]], ⟨some "Sites - north", some "S1~sites_north"⟩⟩,
             ⟨[[("p", "1")]], ⟨some "Sites - south", some "S1~sites_south"⟩⟩] :=
  (split_transform_extensions testPool testSplitCfg "vectordatacube:geojson"
    "geometry" "Sites" "S1~sites" [] testVdc ["north", "south"]
    rfl rfl rfl rfl rfl rfl rfl).trans rfl

/-- C7: the Cube Opener selects the first advertised opener id starting
with the `vectordatacube` tag prefix; when none of the advertised opener
ids matches, the dataset contributes no feature set, no error is raised,
and processing continues with the next resolved config. -/
theorem opener_selection_first_match_or_skip :
    (∀ (pool : String → DataStore) (cfg : VdcCfg) (pre post : List String)
        (oid : String),
        (pool cfg.storeInstanceId).openerIds cfg.path = pre ++ oid :: post →
        (∀ o ∈ pre, startswith o "vectordatacube" = false) →
        startswith oid "vectordatacube" = true →
        readOne pool cfg = readOpened pool cfg oid)
    ∧ (∀ (pool : String → DataStore) (cfg : VdcCfg) (rest : List VdcCfg),
        (∀ o ∈ (pool cfg.storeInstanceId).openerIds cfg.path,
            startswith o "vectordatacube" = false) →
        readOne pool cfg = .ok []
        ∧ _read_vector_datacubes_as_geodataframes pool (cfg :: rest)
            = _read_vector_datacubes_as_geodataframes pool rest) := by
  constructor
  · intro pool cfg pre post oid hids hpre hoid
    simp only [readOne]
    rw [hids, List.find?_append,
      List.find?_eq_none.mpr (fun o ho => by simp [hpre o ho]),
      @List.find?_cons_of_pos String (fun o => startswith o "vectordatacube")
        oid post hoid]
    rfl
  · intro pool cfg rest hall
    have h1 : readOne pool cfg = .ok [] := by
      simp only [readOne]
      rw [List.find?_eq_none.mpr (fun o ho => by simp [hall o ho])]
    refine ⟨h1, ?_⟩
    have hcons : _read_vector_datacubes_as_geodataframes pool (cfg :: rest)
        = (readOne pool cfg >>= fun gdfs =>
            _read_vector_datacubes_as_geodataframes pool rest >>= fun restG =>
            .ok (gdfs ++ restG)) := rfl
    rw [hcons, h1, exceptBind_ok]
    rcases hres : _read_vector_datacubes_as_geodataframes pool rest
      with err | gdfs
    · rw [exceptBind_error]
    · rw [exceptBind_ok, List.nil_append]

/-- Witness for C7: the second advertised opener id is the first match and
gets selected; a store with no matching opener skips its dataset and the
pipeline result equals the pipeline without that dataset. -/
theorem opener_selection_witness :
    readOne testPool testUnsplitCfg
        = readOpened testPool testUnsplitCfg "vectordatacube:geojson"
    ∧ readOne testPool testNoOpenerCfg = .ok []
    ∧ _read_vector_datacubes_as_geodataframes testPool
          [testNoOpenerCfg, testUnsplitCfg]
        = _read_vector_datacubes_as_geodataframes testPool [testUnsplitCfg] :=
  ⟨opener_selection_first_match_or_skip.1 testPool testUnsplitCfg ["zarr"]
      ["vectordatacube:netcdf"] "vectordatacube:geojson" rfl (by decide) (by decide),
   (opener_selection_first_match_or_skip.2 testPool testNoOpenerCfg
      [testUnsplitCfg] (by decide)).1,
   (opener_selection_first_match_or_skip.2 testPool testNoOpenerCfg
      [testUnsplitCfg] (by decide)).2⟩

/-! ## Claims about the Place Group Materializer -/

theorem load_features_isSome (parse : String → String) (pg : PlaceGroup)
    (gdf : GeoDataFrame) :
    (load_gdf_place_group_features parse pg gdf).features.isSome := by
  unfold load_gdf_place_group_features
  rcases hf : pg.features with _ | fs
  · simp
  · simp [hf]

theorem load_of_populated (parse : String → String) (pg : PlaceGroup)
    (gdf : GeoDataFrame) (h : pg.features.isSome) :
    load_gdf_place_group_features parse pg gdf = pg := by
  obtain ⟨fs, hf⟩ := Option.isSome_iff_exists.mp h
  unfold load_gdf_place_group_features
  rw [hf]

theorem cset_self (c : Cache) (pgid : String) (pg : PlaceGroup) :
    cset c pgid pg pgid = some pg := by
  simp [cset]

/-- C3: materializing a place group twice for the same derived id is
idempotent — the second call finds the cached record, performs no feature
population (it returns the very record of the first call, so the features
list is identical), and leaves the cache pointwise unchanged, never
overwriting the already-populated features field. -/
theorem create_place_group_idempotent (parse : String → String)
    (get_place_group_id_safe : StrDict → Except PyErr String)
    (get_property_mapping : String → StrDict → List (String × String))
    (check_sub_group_configs : StrDict → Except PyErr Unit)
    (address port : String) (cache : Cache) (cfg cfg2 : StrDict)
    (gdf gdf2 : GeoDataFrame) (c1 : Cache) (pg1 : PlaceGroup) (pgid : String)
    (hD : get_place_group_id_safe cfg = .ok pgid)
    (h1 : _create_place_group parse get_place_group_id_safe
        get_property_mapping check_sub_group_configs address port cache cfg gdf
        = .ok (c1, pg1))
    (h2 : truthy (dget? cfg2 "PlaceGroupRef") = false)
    (h3 : get_place_group_id_safe cfg2 = get_place_group_id_safe cfg) :
    _create_place_group parse get_place_group_id_safe get_property_mapping
        check_sub_group_configs address port c1 cfg2 gdf2
      = .ok (cset c1 pgid pg1, pg1)
    ∧ (∀ k, cset c1 pgid pg1 k = c1 k)
    ∧ pg1.features.isSome := by
  have hkey : c1 pgid = some pg1 ∧ pg1.features.isSome := by
    unfold _create_place_group at h1
    by_cases htr : truthy (dget? cfg "PlaceGroupRef") = true
    · rw [if_pos htr] at h1
      simp at h1
    · rw [if_neg htr, hD, exceptBind_ok] at h1
      rcases hc : cache pgid with _ | pg
      · rw [hc] at h1
        rcases hchk : check_sub_group_configs cfg with err | u
        · rw [hchk, exceptBind_error] at h1
          simp at h1
        · rw [hchk, exceptBind_ok] at h1
          simp only [Except.ok.injEq, Prod.mk.injEq] at h1
          obtain ⟨hcc, hpp⟩ := h1
          subst hpp
          rw [← hcc, cset_self]
          exact ⟨rfl, load_features_isSome parse _ gdf⟩
      · rw [hc] at h1
        simp only [Except.ok.injEq, Prod.mk.injEq] at h1
        obtain ⟨hcc, hpp⟩ := h1
        subst hpp
        rw [← hcc, cset_self]
        exact ⟨rfl, load_features_isSome parse _ gdf⟩
  obtain ⟨hc1pg, hfeat⟩ := hkey
  refine ⟨?_, ?_, hfeat⟩
  · unfold _create_place_group
    rw [if_neg (by simp [h2]), h3, hD, exceptBind_ok, hc1pg]
    simp only [load_of_populated parse pg1 gdf2 hfeat]
  · intro k
    unfold cset
    by_cases hk : k = pgid
    · rw [if_pos hk, hk, hc1pg]
    · rw [if_neg hk]

/-- Witness for C3: re-materializing id `G` against an already-populated
cache returns the cached record with its features untouched and the cache
unchanged at every probed key. -/
theorem create_place_group_idempotent_witness :
    _create_place_group (fun s => s) testDeriveId testPropMapping testCheckSub
        "host" "8080" testCache1 [("Identifier", "G")] testGdf2
      = .ok (cset testCache1 "G" testPlaceGroup, testPlaceGroup)
    ∧ cset testCache1 "G" testPlaceGroup "G" = testCache1 "G"
    ∧ cset testCache1 "G" testPlaceGroup "zzz" = testCache1 "zzz"
    ∧ testPlaceGroup.features.isSome := by
  have h := create_place_group_idempotent (fun s => s) testDeriveId
    testPropMapping testCheckSub "host" "8080" emptyCache
    [("Identifier", "G")] [("Identifier", "G")] testGdf testGdf2
    testCache1 testPlaceGroup "G" rfl rfl rfl rfl
  exact ⟨h.1, h.2.1 "G", h.2.1 "zzz", h.2.2⟩

/-- C8 is false as stated: a mapping that DECLARES the `PlaceGroupRef` key
with a falsy (empty-string) value passes Python's truthiness check and
materialization succeeds instead of failing. -/
theorem place_group_ref_empty_cex :
    dmem [("PlaceGroupRef", ""), ("Identifier", "G")] "PlaceGroupRef" = true
    ∧ (_create_place_group (fun s => s) testDeriveId testPropMapping
        testCheckSub "host" "8080" emptyCache
        [("PlaceGroupRef", ""), ("Identifier", "G")] testGdf).isOk = true :=
  ⟨rfl, rfl⟩

/-- C8 (amended): if the attributes mapping carries `PlaceGroupRef` with a
truthy (non-empty) value, materialization fails with the configuration
error before anything else happens — for every id derivation, property
mapping, validation collaborator, cache and geodataframe, no place-group id
is consulted, nothing is cached and no features are populated, the result
is the error alone. -/
theorem place_group_ref_truthy_error (parse : String → String)
    (get_place_group_id_safe : StrDict → Except PyErr String)
    (get_property_mapping : String → StrDict → List (String × String))
    (check_sub_group_configs : StrDict → Except PyErr Unit)
    (address port : String) (cache : Cache) (cfg : StrDict)
    (gdf : GeoDataFrame)
    (h : truthy (dget? cfg "PlaceGroupRef") = true) :
    _create_place_group parse get_place_group_id_safe get_property_mapping
        check_sub_group_configs address port cache cfg gdf
      = .error (.invalidServerConfig
          "'PlaceGroupRef' cannot be used in a GDF place group") := by
  unfold _create_place_group
  rw [if_pos h]

/-- Witness for the amended C8. -/
theorem place_group_ref_truthy_error_witness :
    _create_place_group (fun s => s) testDeriveId testPropMapping testCheckSub
        "host" "8080" emptyCache [("PlaceGroupRef", "other-group")] testGdf
      = .error (.invalidServerConfig
          "'PlaceGroupRef' cannot be used in a GDF place group") :=
  place_group_ref_truthy_error (fun s => s) testDeriveId testPropMapping
    testCheckSub "host" "8080" emptyCache [("PlaceGroupRef", "other-group")]
    testGdf rfl

end VdcPlaces
